import Mathlib

/-!
# CMSIS-DAP pin layer of TinyICE (`Firmware/TinyICE/DAP_config.h`)

A shallow embedding of the port set-up, tear-down and pin accessor functions of
`DAP_config.h`, together with theorems about the GPIO register states they produce.

Every function of the header is a straight-line sequence of stores to the memory-mapped
registers of GPIO ports A and B.  A function is embedded as the list of its stores, in
source order, and run by `exec`; the intermediate register states are therefore available
to statements about the order of the stores.
-/

namespace DAPConfig

/-! ## Registers -/

/-- Modelled from the spec: the GPIO peripheral (`GPIO_TypeDef` of `stm32f10x.h` and the
hardware behind it) is not among the sources, which only store to it; the spec calls it
"direct register bit manipulation with atomic set/clear semantics".  The registers kept are
the ones `DAP_config.h` names: the two configuration registers (a 4-bit field per pin, pins
0..7 in `CRL`, pins 8..15 in `CRH`), the input data register and the output data register.
`BSRR` and `BRR` are write-only and act on `ODR`, see `writeBSRR` and `writeBRR`.
Registers are 32 bits wide; a value is kept as a natural number. -/
structure GPIO_TypeDef where
  CRL : Nat
  CRH : Nat
  IDR : Nat
  ODR : Nat
deriving DecidableEq, Repr

/-- Register state of the two ports used by the probe. -/
structure Regs where
  GPIOA : GPIO_TypeDef
  GPIOB : GPIO_TypeDef
deriving DecidableEq, Repr

/-- Representation invariant of a port: configuration registers are 32-bit values, the data
registers hold one bit per pin (their upper halves are reserved and read as zero). -/
def GPIO_TypeDef.WF (p : GPIO_TypeDef) : Prop :=
  p.CRL < 2 ^ 32 ∧ p.CRH < 2 ^ 32 ∧ p.IDR < 2 ^ 16 ∧ p.ODR < 2 ^ 16

instance (p : GPIO_TypeDef) : Decidable p.WF := by
  unfold GPIO_TypeDef.WF; infer_instance

/-- Representation invariant of the register state. -/
def Regs.WF (s : Regs) : Prop := s.GPIOA.WF ∧ s.GPIOB.WF

instance (s : Regs) : Decidable s.WF := by
  unfold Regs.WF; infer_instance

/-- The C operator `~` on a 32-bit operand. -/
def not32 (x : Nat) : Nat := 0xFFFFFFFF ^^^ x

/-- Modelled from the spec: effect on `ODR` of the store `GPIOx->BSRR = v` ("atomic
set/clear semantics"; the hardware is not among the sources).  Bits 0..15 of `v` set the
output data bit of the same number, bits 16..31 reset output data bit `n - 16`, and a set
wins over a reset of the same pin.  The comments of `DAP_config.h` read the stores this
way (a `BSRR` store of `1 << n` is commented as driving pin `n` high). -/
def writeBSRR (p : GPIO_TypeDef) (v : Nat) : GPIO_TypeDef :=
  { p with ODR := (p.ODR &&& (0xFFFF ^^^ ((v >>> 16) &&& 0xFFFF))) ||| (v &&& 0xFFFF) }

/-- Modelled from the spec: effect on `ODR` of the store `GPIOx->BRR = v` (hardware not
among the sources): bits 0..15 of `v` reset the output data bit of the same number. -/
def writeBRR (p : GPIO_TypeDef) (v : Nat) : GPIO_TypeDef :=
  { p with ODR := p.ODR &&& (0xFFFF ^^^ (v &&& 0xFFFF)) }

/-! ## Stores -/

/-- The two GPIO ports. -/
inductive Port where
  | A
  | B
deriving DecidableEq, Repr

/-- The two configuration registers of a port. -/
inductive CfgReg where
  | CRL
  | CRH
deriving DecidableEq, Repr

/-- One C statement of the header: a store to a GPIO register. -/
inductive Store where
  /-- The statement `GPIOp->r &= m`. -/
  | andAssign (p : Port) (r : CfgReg) (m : Nat)
  /-- The statement `GPIOp->r |= m`. -/
  | orAssign (p : Port) (r : CfgReg) (m : Nat)
  /-- The statement `GPIOp->BSRR = v`. -/
  | BSRR (p : Port) (v : Nat)
  /-- The statement `GPIOp->BRR = v`. -/
  | BRR (p : Port) (v : Nat)
deriving DecidableEq, Repr

/-- Read access to a port of the register state. -/
def Regs.port (s : Regs) : Port → GPIO_TypeDef
  | .A => s.GPIOA
  | .B => s.GPIOB

/-- Replace a port of the register state. -/
def Regs.setPort (s : Regs) (p : Port) (g : GPIO_TypeDef) : Regs :=
  match p with
  | .A => { s with GPIOA := g }
  | .B => { s with GPIOB := g }

/-- Read a configuration register. -/
def GPIO_TypeDef.cfg (g : GPIO_TypeDef) : CfgReg → Nat
  | .CRL => g.CRL
  | .CRH => g.CRH

/-- Store to a configuration register (32 bits are kept). -/
def GPIO_TypeDef.setCfg (g : GPIO_TypeDef) (r : CfgReg) (v : Nat) : GPIO_TypeDef :=
  match r with
  | .CRL => { g with CRL := v % 2 ^ 32 }
  | .CRH => { g with CRH := v % 2 ^ 32 }

/-- Effect of one store on the register state. -/
def step (st : Store) (s : Regs) : Regs :=
  match st with
  | .andAssign p r m => s.setPort p ((s.port p).setCfg r ((s.port p).cfg r &&& m))
  | .orAssign p r m => s.setPort p ((s.port p).setCfg r ((s.port p).cfg r ||| m))
  | .BSRR p v => s.setPort p (writeBSRR (s.port p) v)
  | .BRR p v => s.setPort p (writeBRR (s.port p) v)

/-- Run a sequence of stores, first store first. -/
def exec (body : List Store) (s : Regs) : Regs :=
  body.foldl (fun acc st => step st acc) s

/-- Register state after each prefix of a sequence of stores: entry `k` is the state after
the first `k` stores. -/
def trace : List Store → Regs → List Regs
  | [], s => [s]
  | st :: rest, s => s :: trace rest (step st s)

/-! ## Configure DAP I/O pins (`DAP_config.h`, lines 135-256) -/

/-- Stores of `PORT_JTAG_SETUP`, in source order. -/
def PORT_JTAG_SETUP_body : List Store :=
  [ .BSRR .B (1 <<< 2),
    .andAssign .B .CRH (not32 (0xF <<< 28)),
    .orAssign .B .CRH (0x1 <<< 28),
    .BSRR .B (1 <<< 15),
    .BSRR .B (1 <<< 1),
    .andAssign .B .CRH (not32 (0xF <<< 24)),
    .orAssign .B .CRH (0x1 <<< 24),
    .BSRR .B (1 <<< 24),
    .BSRR .B (1 <<< 0),
    .andAssign .B .CRH (not32 (0xF <<< 20)),
    .orAssign .B .CRH (0x1 <<< 20),
    .BSRR .B (1 <<< 13),
    .BSRR .B (1 <<< 3),
    .andAssign .B .CRH (not32 (0xF <<< 16)),
    .orAssign .B .CRH (0x1 <<< 16),
    .BSRR .B (1 <<< 12),
    .BSRR .B (1 <<< 4),
    .andAssign .A .CRL (not32 (0xF <<< 12)),
    .orAssign .A .CRL (0x1 <<< 12),
    .BSRR .A (1 <<< 3),
    .BRR .B (1 <<< 5),
    .andAssign .A .CRL (not32 (0xF <<< 8)),
    .orAssign .A .CRL (0x8 <<< 8) ]

/-- Setup JTAG I/O pins: the function `PORT_JTAG_SETUP`. -/
def PORT_JTAG_SETUP (s : Regs) : Regs := exec PORT_JTAG_SETUP_body s

/-- Stores of `PORT_SWD_SETUP`, in source order. -/
def PORT_SWD_SETUP_body : List Store :=
  [ .BSRR .B (1 <<< 2),
    .andAssign .B .CRH (not32 (0xF <<< 28)),
    .orAssign .B .CRH (0x1 <<< 28),
    .BSRR .B (1 <<< 15),
    .BSRR .B (1 <<< 1),
    .andAssign .B .CRH (not32 (0xF <<< 24)),
    .orAssign .B .CRH (0x1 <<< 24),
    .BSRR .B (1 <<< 14),
    .BSRR .B (1 <<< 0),
    .andAssign .B .CRH (not32 (0xF <<< 20)),
    .orAssign .B .CRH (0x1 <<< 20),
    .BSRR .B (1 <<< 13) ]

/-- Setup SWD I/O pins: the function `PORT_SWD_SETUP`. -/
def PORT_SWD_SETUP (s : Regs) : Regs := exec PORT_SWD_SETUP_body s

/-- Stores of `PORT_OFF`, in source order. -/
def PORT_OFF_body : List Store :=
  [ .andAssign .B .CRH (not32 (0xF <<< 28)),
    .orAssign .B .CRH (0x8 <<< 28),
    .BRR .B (1 <<< 2),
    .andAssign .B .CRH (not32 (0xF <<< 24)),
    .orAssign .B .CRH (0x8 <<< 24),
    .BRR .B (1 <<< 1),
    .andAssign .B .CRH (not32 (0xF <<< 20)),
    .orAssign .B .CRH (0x8 <<< 20),
    .BRR .B (1 <<< 0),
    .andAssign .B .CRH (not32 (0xF <<< 16)),
    .orAssign .B .CRH (0x8 <<< 16),
    .BRR .B (1 <<< 3),
    .andAssign .A .CRL (not32 (0xF <<< 12)),
    .orAssign .A .CRL (0x8 <<< 12),
    .BRR .B (1 <<< 4),
    .andAssign .A .CRL (not32 (0xF <<< 8)),
    .orAssign .A .CRL (0x8 <<< 8),
    .BRR .B (1 <<< 5) ]

/-- Disable JTAG/SWD I/O pins: the function `PORT_OFF`. -/
def PORT_OFF (s : Regs) : Regs := exec PORT_OFF_body s

/-! ## Pin accessors (`DAP_config.h`, lines 259-433) -/

/-- SWCLK/TCK I/O pin: Get Input. -/
def PIN_SWCLK_TCK_IN (s : Regs) : Nat :=
  if s.GPIOB.IDR &&& (1 <<< 15) ≠ 0 then 1 else 0

/-- Stores of `PIN_SWCLK_TCK_SET`. -/
def PIN_SWCLK_TCK_SET_body : List Store := [ .BSRR .B (1 <<< 15) ]

/-- SWCLK/TCK I/O pin: Set Output to High. -/
def PIN_SWCLK_TCK_SET (s : Regs) : Regs := exec PIN_SWCLK_TCK_SET_body s

/-- Stores of `PIN_SWCLK_TCK_CLR`. -/
def PIN_SWCLK_TCK_CLR_body : List Store := [ .BRR .B (1 <<< 15) ]

/-- SWCLK/TCK I/O pin: Set Output to Low. -/
def PIN_SWCLK_TCK_CLR (s : Regs) : Regs := exec PIN_SWCLK_TCK_CLR_body s

/-- SWDIO/TMS I/O pin: Get Input. -/
def PIN_SWDIO_TMS_IN (s : Regs) : Nat :=
  if s.GPIOB.IDR &&& (1 <<< 14) ≠ 0 then 1 else 0

/-- Stores of `PIN_SWDIO_TMS_SET`. -/
def PIN_SWDIO_TMS_SET_body : List Store := [ .BSRR .B (1 <<< 14) ]

/-- SWDIO/TMS I/O pin: Set Output to High. -/
def PIN_SWDIO_TMS_SET (s : Regs) : Regs := exec PIN_SWDIO_TMS_SET_body s

/-- Stores of `PIN_SWDIO_TMS_CLR`. -/
def PIN_SWDIO_TMS_CLR_body : List Store := [ .BRR .B (1 <<< 14) ]

/-- SWDIO/TMS I/O pin: Set Output to Low. -/
def PIN_SWDIO_TMS_CLR (s : Regs) : Regs := exec PIN_SWDIO_TMS_CLR_body s

/-- SWDIO I/O pin: Get Input (used in SWD mode only). -/
def PIN_SWDIO_IN (s : Regs) : Nat :=
  if s.GPIOB.IDR &&& (1 <<< 14) ≠ 0 then 1 else 0

/-- Stores of `PIN_SWDIO_OUT (bit)`. -/
def PIN_SWDIO_OUT_body (bit : Nat) : List Store :=
  if bit &&& 0x1 ≠ 0 then [ .BSRR .B (1 <<< 14) ] else [ .BRR .B (1 <<< 14) ]

/-- SWDIO I/O pin: Set Output (used in SWD mode only). -/
def PIN_SWDIO_OUT (bit : Nat) (s : Regs) : Regs := exec (PIN_SWDIO_OUT_body bit) s

/-- Stores of `PIN_SWDIO_OUT_ENABLE`, in source order. -/
def PIN_SWDIO_OUT_ENABLE_body : List Store :=
  [ .andAssign .B .CRH (not32 (0xF <<< 24)),
    .orAssign .B .CRH (0x1 <<< 24),
    .BSRR .B (1 <<< 1) ]

/-- SWDIO I/O pin: Switch to Output mode (used in SWD mode only). -/
def PIN_SWDIO_OUT_ENABLE (s : Regs) : Regs := exec PIN_SWDIO_OUT_ENABLE_body s

/-- Stores of `PIN_SWDIO_OUT_DISABLE`, in source order. -/
def PIN_SWDIO_OUT_DISABLE_body : List Store :=
  [ .andAssign .B .CRH (not32 (0xF <<< 24)),
    .orAssign .B .CRH (0x4 <<< 24),
    .BRR .B (1 <<< 1) ]

/-- SWDIO I/O pin: Switch to Input mode (used in SWD mode only). -/
def PIN_SWDIO_OUT_DISABLE (s : Regs) : Regs := exec PIN_SWDIO_OUT_DISABLE_body s

/-- TDI I/O pin: Get Input.  The source returns the constant 0 ("Not available"). -/
def PIN_TDI_IN (_s : Regs) : Nat := 0

/-- Stores of `PIN_TDI_OUT (bit)`. -/
def PIN_TDI_OUT_body (bit : Nat) : List Store :=
  if bit &&& 0x1 ≠ 0 then [ .BSRR .A (1 <<< 3) ] else [ .BRR .A (1 <<< 3) ]

/-- TDI I/O pin: Set Output. -/
def PIN_TDI_OUT (bit : Nat) (s : Regs) : Regs := exec (PIN_TDI_OUT_body bit) s

/-- TDO I/O pin: Get Input. -/
def PIN_TDO_IN (s : Regs) : Nat :=
  if s.GPIOA.IDR &&& (1 <<< 2) ≠ 0 then 1 else 0

/-- nTRST I/O pin: Get Input.  The source returns the constant 0. -/
def PIN_nTRST_IN (_s : Regs) : Nat := 0

/-- Stores of `PIN_nTRST_OUT (bit)`. -/
def PIN_nTRST_OUT_body (bit : Nat) : List Store :=
  if bit &&& 0x1 ≠ 0 then [ .BSRR .B (1 <<< 12) ] else [ .BRR .B (1 <<< 12) ]

/-- nTRST I/O pin: Set Output. -/
def PIN_nTRST_OUT (bit : Nat) (s : Regs) : Regs := exec (PIN_nTRST_OUT_body bit) s

/-- nRESET I/O pin: Get Input.  The source returns the constant 0 ("Not available"). -/
def PIN_nRESET_IN (_s : Regs) : Nat := 0

/-- Stores of `PIN_nRESET_OUT (bit)`. -/
def PIN_nRESET_OUT_body (bit : Nat) : List Store :=
  if bit &&& 0x1 ≠ 0 then [ .BSRR .B (1 <<< 13) ] else [ .BRR .B (1 <<< 13) ]

/-- nRESET I/O pin: Set Output. -/
def PIN_nRESET_OUT (bit : Nat) (s : Regs) : Regs := exec (PIN_nRESET_OUT_body bit) s

/-! ## Observations on a register state -/

/-- Configuration field of pin `n` of a port: four bits `CNF1 CNF0 MODE1 MODE0`, pins 0..7 in
`CRL` and pins 8..15 in `CRH`.  The value `0x1` is general-purpose push-pull output (10 MHz),
`0x4` floating input, `0x8` input with pull-up / pull-down. -/
def pinCfg (g : GPIO_TypeDef) (n : Nat) : Nat :=
  if n < 8 then (g.CRL >>> (4 * n)) &&& 0xF else (g.CRH >>> (4 * (n - 8))) &&& 0xF

/-- Output data bit of pin `n` of a port. -/
def pinOut (g : GPIO_TypeDef) (n : Nat) : Bool := g.ODR.testBit n

/-- Input data bit of pin `n` of a port. -/
def pinIn (g : GPIO_TypeDef) (n : Nat) : Bool := g.IDR.testBit n

/-- Pin `n` is in an input configuration: its `MODE` bits are `00`, so the output driver
is off. -/
def isInput (g : GPIO_TypeDef) (n : Nat) : Prop := pinCfg g n &&& 0x3 = 0

instance (g : GPIO_TypeDef) (n : Nat) : Decidable (isInput g n) := by
  unfold isInput; infer_instance

/-- The hardware latches pin levels into the input data registers: the register state with
the input data registers of ports A and B replaced by `a` and `b`. -/
def sample (s : Regs) (a b : Nat) : Regs :=
  { GPIOA := { s.GPIOA with IDR := a }, GPIOB := { s.GPIOB with IDR := b } }

/-- Loopback wiring: every pin that is configured as an output reads back, in the input data
register, the level of its output data bit. -/
def Loopback (s : Regs) : Prop :=
  ∀ n, n < 16 →
    (¬ isInput s.GPIOA n → pinIn s.GPIOA n = pinOut s.GPIOA n) ∧
    (¬ isInput s.GPIOB n → pinIn s.GPIOB n = pinOut s.GPIOB n)

instance (s : Regs) : Decidable (Loopback s) := by
  unfold Loopback; infer_instance

/-- Register values after a hardware reset: every pin a floating input, output data zero. -/
def resetState : Regs :=
  { GPIOA := { CRL := 0x44444444, CRH := 0x44444444, IDR := 0, ODR := 0 },
    GPIOB := { CRL := 0x44444444, CRH := 0x44444444, IDR := 0, ODR := 0 } }

/-- SWD mode with the clock driven low: the reset state after `PORT_SWD_SETUP` and
`PIN_SWCLK_TCK_CLR`. -/
def swclkLowState : Regs := PIN_SWCLK_TCK_CLR (PORT_SWD_SETUP resetState)

/-- The reset state with the output data bit of PB8 set. -/
def pb8HighState : Regs :=
  { GPIOA := { CRL := 0x44444444, CRH := 0x44444444, IDR := 0, ODR := 0 },
    GPIOB := { CRL := 0x44444444, CRH := 0x44444444, IDR := 0, ODR := 0x0100 } }

/-- Along a sequence of register states, pin `n` of port `p` is at high level whenever it
has just been switched to an input: for every two consecutive states, if the pin is not an
input in the first and is an input in the second, its output data bit is 1 in the second. -/
def highWhenSwitchedToInput (tr : List Regs) (p : Port) (n : Nat) : Prop :=
  ∀ pr ∈ tr.zip tr.tail,
    ¬ isInput (pr.1.port p) n → isInput (pr.2.port p) n → pinOut (pr.2.port p) n = true

instance (tr : List Regs) (p : Port) (n : Nat) :
    Decidable (highWhenSwitchedToInput tr p n) := by
  unfold highWhenSwitchedToInput; infer_instance

/-- The state `t` differs from `s` at most on the debug pins and their direction-control
bits: the port-B output data bits PB6..PB11, the port-A output data bits other than PA3, the
port-B configuration fields of PB0..PB11 and the port-A configuration fields other than
those of PA2 and PA3 are the same in both. -/
def OnlyDebugPinsChanged (s t : Regs) : Prop :=
  (∀ n, n < 16 → 6 ≤ n → n < 12 → pinOut t.GPIOB n = pinOut s.GPIOB n) ∧
  (∀ n, n < 16 → n ≠ 3 → pinOut t.GPIOA n = pinOut s.GPIOA n) ∧
  (∀ n, n < 16 → n < 12 → pinCfg t.GPIOB n = pinCfg s.GPIOB n) ∧
  (∀ n, n < 16 → n ≠ 2 → n ≠ 3 → pinCfg t.GPIOA n = pinCfg s.GPIOA n)

instance (s t : Regs) : Decidable (OnlyDebugPinsChanged s t) := by
  unfold OnlyDebugPinsChanged; infer_instance

/-! ## Bit-level lemmas -/

/-- Bit `k` of a numeral, in a form that evaluates by arithmetic on numerals. -/
theorem testBit_lit (n k : Nat) :
    Nat.testBit (no_index (OfNat.ofNat n)) k = decide ((OfNat.ofNat n : Nat) / 2 ^ k % 2 = 1) :=
  Nat.testBit_to_div_mod

/-- Bits of a value truncated to 32 bits. -/
theorem testBit_mod32 (x i : Nat) :
    (x % 4294967296).testBit i = (decide (i < 32) && x.testBit i) :=
  Nat.testBit_mod_two_pow x 32 i

/-- A 32-bit value has no bit at position 32 or above. -/
theorem testBit_high (n i : Nat) (hn : n < 2 ^ 32) (hi : 32 ≤ i) : n.testBit i = false :=
  Nat.testBit_lt_two_pow (lt_of_lt_of_le hn (Nat.pow_le_pow_right (by norm_num) hi))

/-- Two values without bits above position 31 are equal when their low 32 bits agree. -/
theorem eq_of_bits32 {a b : Nat} (h : ∀ i, i < 32 → a.testBit i = b.testBit i)
    (ha : ∀ i, 32 ≤ i → a.testBit i = false) (hb : ∀ i, 32 ≤ i → b.testBit i = false) :
    a = b := by
  apply Nat.eq_of_testBit_eq
  intro i
  rcases Nat.lt_or_ge i 32 with hi | hi
  · exact h i hi
  · rw [ha i hi, hb i hi]

/-! ## Net effect of the three mode operations -/

/-- Net effect of `PORT_OFF`: the configuration fields of PB12..PB15 and of PA2, PA3 become
`0x8`, the output data bits PB0..PB5 are cleared, everything else is kept. -/
theorem PORT_OFF_eq (s : Regs) : PORT_OFF s =
    { GPIOA := { s.GPIOA with CRL := (s.GPIOA.CRL &&& 0xFFFF00FF) ||| 0x00008800 },
      GPIOB := { s.GPIOB with CRH := (s.GPIOB.CRH &&& 0x0000FFFF) ||| 0x88880000,
                              ODR := s.GPIOB.ODR &&& 0xFFC0 } } := by
  simp only [PORT_OFF, PORT_OFF_body, exec, List.foldl, step, Regs.port, Regs.setPort,
    GPIO_TypeDef.cfg, GPIO_TypeDef.setCfg, writeBRR, writeBSRR, not32]
  congr 2 <;>
  · apply eq_of_bits32
    · intro i hi
      interval_cases i <;>
        simp [-Nat.testBit_zero, Nat.testBit_and, Nat.testBit_or, testBit_mod32, testBit_lit]
    · intro i hi
      simp [Nat.testBit_and, Nat.testBit_or, testBit_mod32, testBit_high, hi]
    · intro i hi
      simp [Nat.testBit_and, Nat.testBit_or, testBit_mod32, testBit_high, hi]

/-- Net effect of `PORT_SWD_SETUP`: the configuration fields of PB13..PB15 become `0x1`, the
output data bits PB0..PB2 and PB13..PB15 are set, everything else is kept. -/
theorem PORT_SWD_SETUP_eq (s : Regs) : PORT_SWD_SETUP s =
    { GPIOA := s.GPIOA,
      GPIOB := { s.GPIOB with CRH := (s.GPIOB.CRH &&& 0x000FFFFF) ||| 0x11100000,
                              ODR := (s.GPIOB.ODR &&& 0xFFFF) ||| 0xE007 } } := by
  simp only [PORT_SWD_SETUP, PORT_SWD_SETUP_body, exec, List.foldl, step, Regs.port,
    Regs.setPort, GPIO_TypeDef.cfg, GPIO_TypeDef.setCfg, writeBRR, writeBSRR, not32]
  congr 2 <;>
  · apply eq_of_bits32
    · intro i hi
      interval_cases i <;>
        simp [-Nat.testBit_zero, Nat.testBit_and, Nat.testBit_or, testBit_mod32, testBit_lit]
    · intro i hi
      simp [Nat.testBit_and, Nat.testBit_or, testBit_mod32, testBit_high, hi]
    · intro i hi
      simp [Nat.testBit_and, Nat.testBit_or, testBit_mod32, testBit_high, hi]

/-- Net effect of `PORT_JTAG_SETUP`: the configuration fields of PB12..PB15 and PA3 become
`0x1` and that of PA2 `0x8`; the output data bits PB0..PB4, PB12, PB13, PB15 and PA3 are set
and PB5 is cleared.  The store `GPIOB->BSRR = (1 << 24)` contributes the cleared bit PB8
(mask `0xFEDF`) and leaves PB14 as it was. -/
theorem PORT_JTAG_SETUP_eq (s : Regs) : PORT_JTAG_SETUP s =
    { GPIOA := { s.GPIOA with CRL := (s.GPIOA.CRL &&& 0xFFFF00FF) ||| 0x00001800,
                              ODR := (s.GPIOA.ODR &&& 0xFFFF) ||| 0x0008 },
      GPIOB := { s.GPIOB with CRH := (s.GPIOB.CRH &&& 0x0000FFFF) ||| 0x11110000,
                              ODR := (s.GPIOB.ODR &&& 0xFEDF) ||| 0xB01F } } := by
  simp only [PORT_JTAG_SETUP, PORT_JTAG_SETUP_body, exec, List.foldl, step, Regs.port,
    Regs.setPort, GPIO_TypeDef.cfg, GPIO_TypeDef.setCfg, writeBRR, writeBSRR, not32]
  congr 2 <;>
  · apply eq_of_bits32
    · intro i hi
      interval_cases i <;>
        simp [-Nat.testBit_zero, Nat.testBit_and, Nat.testBit_or, testBit_mod32, testBit_lit]
    · intro i hi
      simp [Nat.testBit_and, Nat.testBit_or, testBit_mod32, testBit_high, hi]
    · intro i hi
      simp [Nat.testBit_and, Nat.testBit_or, testBit_mod32, testBit_high, hi]

/-- Value of a configuration field that has just been assigned: after the register is
masked with `m` and or-ed with `c`, the 4-bit field at bit `k` is `v`, provided the numerals
say so bit by bit. -/
theorem field_eq (x m c k v : Nat)
    (h : ∀ i, i < 4 → m.testBit (k + i) = false ∧ c.testBit (k + i) = v.testBit i)
    (hv : v < 16) : ((x &&& m ||| c) >>> k) &&& 0xF = v := by
  apply Nat.eq_of_testBit_eq
  intro i
  rcases Nat.lt_or_ge i 4 with hi | hi
  · have h15 : Nat.testBit 15 i = true := by interval_cases i <;> decide
    simp [Nat.testBit_and, Nat.testBit_or, Nat.testBit_shiftRight, (h i hi).1, (h i hi).2, h15]
  · have hp : 16 ≤ 2 ^ i := by
      have h2 : 2 ^ 4 ≤ 2 ^ i := Nat.pow_le_pow_right (by norm_num) hi
      simpa using h2
    have h15 : Nat.testBit 15 i = false :=
      Nat.testBit_lt_two_pow (lt_of_lt_of_le (by norm_num) hp)
    have hvi : v.testBit i = false := Nat.testBit_lt_two_pow (lt_of_lt_of_le hv hp)
    simp [Nat.testBit_and, h15, hvi]

/-- A configuration field outside the mask of an assignment keeps its value. -/
theorem field_keep (x m c k : Nat)
    (h : ∀ i, i < 4 → m.testBit (k + i) = true ∧ c.testBit (k + i) = false) :
    ((x &&& m ||| c) >>> k) &&& 0xF = (x >>> k) &&& 0xF := by
  apply Nat.eq_of_testBit_eq
  intro i
  rcases Nat.lt_or_ge i 4 with hi | hi
  · simp [Nat.testBit_and, Nat.testBit_or, Nat.testBit_shiftRight, (h i hi).1, (h i hi).2]
  · have hp : 16 ≤ 2 ^ i := by
      have h2 : 2 ^ 4 ≤ 2 ^ i := Nat.pow_le_pow_right (by norm_num) hi
      simpa using h2
    have h15 : Nat.testBit 15 i = false :=
      Nat.testBit_lt_two_pow (lt_of_lt_of_le (by norm_num) hp)
    simp [Nat.testBit_and, h15]

/-- Bits of a register read off the value of one of its 4-bit fields. -/
theorem field_bits (x k v : Nat) (h : (x >>> k) &&& 0xF = v) (i : Nat) (hi : i < 4) :
    x.testBit (k + i) = v.testBit i := by
  have h15 : Nat.testBit 15 i = true := by interval_cases i <;> decide
  rw [← h]
  simp [Nat.testBit_and, Nat.testBit_shiftRight, h15]

/-- The configuration field of a pin 0..7 depends on `CRL` only. -/
theorem pinCfg_low (g h : GPIO_TypeDef) (e : g.CRL = h.CRL) (n : Nat) (hn : n < 8) :
    pinCfg g n = pinCfg h n := by
  simp only [pinCfg, hn, if_true, e]

/-- The configuration field of a pin 8..15 depends on `CRH` only. -/
theorem pinCfg_high (g h : GPIO_TypeDef) (e : g.CRH = h.CRH) (n : Nat) (hn : 8 ≤ n) :
    pinCfg g n = pinCfg h n := by
  have hn2 : ¬ n < 8 := by omega
  simp only [pinCfg, hn2, if_false, e]

/-- The output data bits depend on `ODR` only. -/
theorem pinOut_congr (g h : GPIO_TypeDef) (e : g.ODR = h.ODR) (n : Nat) :
    pinOut g n = pinOut h n := by
  simp only [pinOut, e]

/-- The low 16 bits of the numeral `0xFFFF` are set. -/
theorem testBit_FFFF (i : Nat) : Nat.testBit 0xFFFF i = decide (i < 16) :=
  Nat.testBit_two_pow_sub_one 16 i

/-- A `BSRR` store of `1 << n`, `n < 16`, sets output data bit `n` and keeps the others. -/
theorem pinOut_writeBSRR (g : GPIO_TypeDef) (n i : Nat) (hn : n < 16) (hi : i < 16) :
    pinOut (writeBSRR g (1 <<< n)) i = (decide (i = n) || pinOut g i) := by
  have h1 : ¬ (n = 16 + i) := by omega
  by_cases h : n = i
  · subst h
    simp [pinOut, writeBSRR, Nat.testBit_or, Nat.testBit_and, Nat.testBit_xor,
      Nat.testBit_shiftRight, Nat.one_shiftLeft, Nat.testBit_two_pow, testBit_FFFF, hi]
  · have h2 : ¬ (i = n) := fun e => h e.symm
    simp [pinOut, writeBSRR, Nat.testBit_or, Nat.testBit_and, Nat.testBit_xor,
      Nat.testBit_shiftRight, Nat.one_shiftLeft, Nat.testBit_two_pow, testBit_FFFF, hi, h, h1, h2]

/-- A `BRR` store of `1 << n` clears output data bit `n` and keeps the others. -/
theorem pinOut_writeBRR (g : GPIO_TypeDef) (n i : Nat) (hi : i < 16) :
    pinOut (writeBRR g (1 <<< n)) i = (!decide (i = n) && pinOut g i) := by
  by_cases h : n = i
  · subst h
    simp [pinOut, writeBRR, Nat.testBit_and, Nat.testBit_xor, Nat.one_shiftLeft,
      Nat.testBit_two_pow, testBit_FFFF, hi]
  · have h2 : ¬ (i = n) := fun e => h e.symm
    simp [pinOut, writeBRR, Nat.testBit_and, Nat.testBit_xor, Nat.one_shiftLeft,
      Nat.testBit_two_pow, testBit_FFFF, hi, h, h2]

/-- Masking with a single bit tests that bit. -/
theorem and_bit_ne_zero (x n : Nat) : x &&& (1 <<< n) ≠ 0 ↔ x.testBit n = true := by
  rw [Nat.one_shiftLeft]
  constructor
  · intro h
    by_contra hb
    apply h
    apply Nat.eq_of_testBit_eq
    intro i
    by_cases hi : n = i
    · subst hi; simp [Nat.testBit_and, hb]
    · simp [Nat.testBit_and, Nat.testBit_two_pow, hi]
  · intro hb h
    have := congrArg (fun v => Nat.testBit v n) h
    simp [Nat.testBit_and, Nat.testBit_two_pow, hb] at this

/-- The lowest bit of a number is 0 or 1. -/
theorem and_one_cases (bit : Nat) : bit &&& 1 = 0 ∨ bit &&& 1 = 1 := by
  rw [Nat.and_one_is_mod]; omega

/-- A property that every store of a sequence preserves holds in every state of its trace. -/
theorem trace_invariant (P : Regs → Prop) (body : List Store)
    (h : ∀ st ∈ body, ∀ t, P t → P (step st t)) (s : Regs) (hs : P s) :
    ∀ t ∈ trace body s, P t := by
  induction body generalizing s with
  | nil =>
    intro t ht
    simp only [trace, List.mem_singleton] at ht
    rw [ht]; exact hs
  | cons st rest ih =>
    intro t ht
    simp only [trace, List.mem_cons] at ht
    rcases ht with ht | ht
    · rw [ht]; exact hs
    · exact ih (fun st2 h2 => h st2 (List.mem_cons_of_mem _ h2)) (step st s)
        (h st (List.mem_cons_self _ _) s hs) t ht

/-- The last state of a trace is the result of running the whole sequence. -/
theorem trace_getLast (body : List Store) (s : Regs) :
    (trace body s).getLast? = some (exec body s) := by
  induction body generalizing s with
  | nil => rfl
  | cons st rest ih =>
    have h := ih (step st s)
    simp only [trace]
    cases hr : trace rest (step st s) with
    | nil => rw [hr] at h; simp at h
    | cons x xs =>
      rw [List.getLast?_cons_cons, ← hr, h]
      rfl

/-! ## Mode set-up: `PORT_JTAG_SETUP` and `PORT_SWD_SETUP` (claims C1, C2, C3) -/

/-- What `PORT_JTAG_SETUP` establishes on the five output pins, for every starting state. -/
theorem PORT_JTAG_SETUP_pins (s : Regs) :
    pinCfg (PORT_JTAG_SETUP s).GPIOB 15 = 0x1 ∧ pinOut (PORT_JTAG_SETUP s).GPIOB 15 = true ∧
    pinCfg (PORT_JTAG_SETUP s).GPIOB 14 = 0x1 ∧
    pinOut (PORT_JTAG_SETUP s).GPIOB 14 = pinOut s.GPIOB 14 ∧
    pinCfg (PORT_JTAG_SETUP s).GPIOA 3 = 0x1 ∧ pinOut (PORT_JTAG_SETUP s).GPIOA 3 = true ∧
    pinCfg (PORT_JTAG_SETUP s).GPIOB 12 = 0x1 ∧ pinOut (PORT_JTAG_SETUP s).GPIOB 12 = true ∧
    pinCfg (PORT_JTAG_SETUP s).GPIOB 13 = 0x1 ∧ pinOut (PORT_JTAG_SETUP s).GPIOB 13 = true := by
  rw [PORT_JTAG_SETUP_eq]
  refine ⟨?_, ?_, ?_, ?_, ?_, ?_, ?_, ?_, ?_, ?_⟩
  · exact field_eq _ _ _ 28 1 (by intro i hi; interval_cases i <;> decide) (by norm_num)
  · simp [pinOut, Nat.testBit_or, Nat.testBit_and, testBit_lit]
  · exact field_eq _ _ _ 24 1 (by intro i hi; interval_cases i <;> decide) (by norm_num)
  · simp [pinOut, Nat.testBit_or, Nat.testBit_and, testBit_lit]
  · exact field_eq _ _ _ 12 1 (by intro i hi; interval_cases i <;> decide) (by norm_num)
  · simp [pinOut, Nat.testBit_or, Nat.testBit_and, testBit_lit]
  · exact field_eq _ _ _ 16 1 (by intro i hi; interval_cases i <;> decide) (by norm_num)
  · simp [pinOut, Nat.testBit_or, Nat.testBit_and, testBit_lit]
  · exact field_eq _ _ _ 20 1 (by intro i hi; interval_cases i <;> decide) (by norm_num)
  · simp [pinOut, Nat.testBit_or, Nat.testBit_and, testBit_lit]

/-- C1: at the reset state, `PORT_JTAG_SETUP` makes TMS (PB14) a push-pull output but leaves
its output data bit at 0: the store `GPIOB->BSRR = (1 << 24)` does not set PB14. -/
theorem C1_PORT_JTAG_SETUP_leaves_TMS_low :
    pinCfg (PORT_JTAG_SETUP resetState).GPIOB 14 = 0x1 ∧
    pinOut (PORT_JTAG_SETUP resetState).GPIOB 14 = false := by
  decide

/-- When TMS (PB14) is already high, `PORT_SWD_SETUP` after `PORT_JTAG_SETUP` changes no
register. -/
theorem PORT_SWD_SETUP_after_JTAG_of_TMS_high (s : Regs) (h : pinOut s.GPIOB 14 = true) :
    PORT_SWD_SETUP (PORT_JTAG_SETUP s) = PORT_JTAG_SETUP s := by
  simp only [PORT_SWD_SETUP_eq, PORT_JTAG_SETUP_eq]
  simp only [pinOut] at h
  congr 2 <;>
  · apply eq_of_bits32
    · intro i hi
      interval_cases i <;>
        simp [-Nat.testBit_zero, Nat.testBit_and, Nat.testBit_or, testBit_lit, h]
    · intro i hi
      simp [Nat.testBit_and, Nat.testBit_or, testBit_high, hi]
    · intro i hi
      simp [Nat.testBit_and, Nat.testBit_or, testBit_high, hi]

/-- C2: from the reset state, `PORT_SWD_SETUP` directly after `PORT_JTAG_SETUP` changes the
register state: `PORT_JTAG_SETUP` left the output data bit of PB14 at 0 and `PORT_SWD_SETUP`
sets it. -/
theorem C2_PORT_SWD_SETUP_after_JTAG_changes_state :
    PORT_SWD_SETUP (PORT_JTAG_SETUP resetState) ≠ PORT_JTAG_SETUP resetState ∧
    pinOut (PORT_JTAG_SETUP resetState).GPIOB 14 = false ∧
    pinOut (PORT_SWD_SETUP (PORT_JTAG_SETUP resetState)).GPIOB 14 = true := by
  decide

/-- C3: `PORT_SWD_SETUP` applied to the Off state makes SWCLK, SWDIO and nRESET push-pull
outputs at high level with direction-control bits PB2, PB1, PB0 set, while TDI, TDO and
nTRST stay inputs with direction-control bits PB4, PB5, PB3 cleared. -/
theorem C3_PORT_SWD_SETUP_from_off (s : Regs) :
    (pinCfg (PORT_SWD_SETUP (PORT_OFF s)).GPIOB 15 = 0x1 ∧
     pinCfg (PORT_SWD_SETUP (PORT_OFF s)).GPIOB 14 = 0x1 ∧
     pinCfg (PORT_SWD_SETUP (PORT_OFF s)).GPIOB 13 = 0x1) ∧
    (pinOut (PORT_SWD_SETUP (PORT_OFF s)).GPIOB 15 = true ∧
     pinOut (PORT_SWD_SETUP (PORT_OFF s)).GPIOB 14 = true ∧
     pinOut (PORT_SWD_SETUP (PORT_OFF s)).GPIOB 13 = true) ∧
    (pinOut (PORT_SWD_SETUP (PORT_OFF s)).GPIOB 2 = true ∧
     pinOut (PORT_SWD_SETUP (PORT_OFF s)).GPIOB 1 = true ∧
     pinOut (PORT_SWD_SETUP (PORT_OFF s)).GPIOB 0 = true) ∧
    (isInput (PORT_SWD_SETUP (PORT_OFF s)).GPIOA 3 ∧
     isInput (PORT_SWD_SETUP (PORT_OFF s)).GPIOA 2 ∧
     isInput (PORT_SWD_SETUP (PORT_OFF s)).GPIOB 12) ∧
    (pinOut (PORT_SWD_SETUP (PORT_OFF s)).GPIOB 4 = false ∧
     pinOut (PORT_SWD_SETUP (PORT_OFF s)).GPIOB 5 = false ∧
     pinOut (PORT_SWD_SETUP (PORT_OFF s)).GPIOB 3 = false) := by
  simp only [PORT_SWD_SETUP_eq, PORT_OFF_eq]
  refine ⟨⟨?_, ?_, ?_⟩, ⟨?_, ?_, ?_⟩, ⟨?_, ?_, ?_⟩, ⟨?_, ?_, ?_⟩, ⟨?_, ?_, ?_⟩⟩
  · exact field_eq _ _ _ 28 1 (by intro i hi; interval_cases i <;> decide) (by norm_num)
  · exact field_eq _ _ _ 24 1 (by intro i hi; interval_cases i <;> decide) (by norm_num)
  · exact field_eq _ _ _ 20 1 (by intro i hi; interval_cases i <;> decide) (by norm_num)
  · simp [pinOut, Nat.testBit_or, Nat.testBit_and, testBit_lit]
  · simp [pinOut, Nat.testBit_or, Nat.testBit_and, testBit_lit]
  · simp [pinOut, Nat.testBit_or, Nat.testBit_and, testBit_lit]
  · simp [pinOut, Nat.testBit_or, Nat.testBit_and, testBit_lit]
  · simp [pinOut, Nat.testBit_or, Nat.testBit_and, testBit_lit]
  · simp [-Nat.testBit_zero, pinOut, Nat.testBit_or, Nat.testBit_and, testBit_lit]
  · have h : pinCfg { s.GPIOA with CRL := (s.GPIOA.CRL &&& 0xFFFF00FF) ||| 0x00008800 } 3 = 8 :=
      field_eq _ _ _ 12 8 (by intro i hi; interval_cases i <;> decide) (by norm_num)
    rw [isInput, h]; decide
  · have h : pinCfg { s.GPIOA with CRL := (s.GPIOA.CRL &&& 0xFFFF00FF) ||| 0x00008800 } 2 = 8 :=
      field_eq _ _ _ 8 8 (by intro i hi; interval_cases i <;> decide) (by norm_num)
    rw [isInput, h]; decide
  · have h : pinCfg { s.GPIOB with
        CRH := ((s.GPIOB.CRH &&& 0x0000FFFF ||| 0x88880000) &&& 0x000FFFFF) ||| 0x11100000,
        ODR := (s.GPIOB.ODR &&& 0xFFC0 &&& 0xFFFF) ||| 0xE007 } 12 = 8 := by
      simp only [pinCfg]
      apply eq_of_bits32
      · intro i hi
        interval_cases i <;>
          simp [-Nat.testBit_zero, Nat.testBit_and, Nat.testBit_or, Nat.testBit_shiftRight,
            testBit_lit]
      · intro i hi
        simp [Nat.testBit_and, Nat.testBit_or, testBit_high, hi]
      · intro i hi
        simp [Nat.testBit_and, Nat.testBit_or, testBit_high, hi]
    rw [isInput, h]; decide
  · simp [pinOut, Nat.testBit_or, Nat.testBit_and, testBit_lit]
  · simp [pinOut, Nat.testBit_or, Nat.testBit_and, testBit_lit]
  · simp [pinOut, Nat.testBit_or, Nat.testBit_and, testBit_lit]

/-! ## Tear-down and idempotence (claims C4, C5) -/

/-- Configuration fields written by `PORT_OFF`: each debug pin gets `0x8`. -/
theorem PORT_OFF_cfg (s : Regs) :
    pinCfg (PORT_OFF s).GPIOB 15 = 0x8 ∧ pinCfg (PORT_OFF s).GPIOB 14 = 0x8 ∧
    pinCfg (PORT_OFF s).GPIOB 13 = 0x8 ∧ pinCfg (PORT_OFF s).GPIOB 12 = 0x8 ∧
    pinCfg (PORT_OFF s).GPIOA 3 = 0x8 ∧ pinCfg (PORT_OFF s).GPIOA 2 = 0x8 := by
  rw [PORT_OFF_eq]
  refine ⟨?_, ?_, ?_, ?_, ?_, ?_⟩
  · exact field_eq _ _ _ 28 8 (by intro i hi; interval_cases i <;> decide) (by norm_num)
  · exact field_eq _ _ _ 24 8 (by intro i hi; interval_cases i <;> decide) (by norm_num)
  · exact field_eq _ _ _ 20 8 (by intro i hi; interval_cases i <;> decide) (by norm_num)
  · exact field_eq _ _ _ 16 8 (by intro i hi; interval_cases i <;> decide) (by norm_num)
  · exact field_eq _ _ _ 12 8 (by intro i hi; interval_cases i <;> decide) (by norm_num)
  · exact field_eq _ _ _ 8 8 (by intro i hi; interval_cases i <;> decide) (by norm_num)

/-- C4: after `PORT_OFF`, from any register state, the six debug pins PB15, PB14, PB13,
PB12, PA3 and PA2 are in an input configuration and the direction-control output bits
PB0..PB5 are all 0. -/
theorem C4_PORT_OFF_inputs (s : Regs) :
    (isInput (PORT_OFF s).GPIOB 15 ∧ isInput (PORT_OFF s).GPIOB 14 ∧
     isInput (PORT_OFF s).GPIOB 13 ∧ isInput (PORT_OFF s).GPIOB 12 ∧
     isInput (PORT_OFF s).GPIOA 3 ∧ isInput (PORT_OFF s).GPIOA 2) ∧
    (pinOut (PORT_OFF s).GPIOB 0 = false ∧ pinOut (PORT_OFF s).GPIOB 1 = false ∧
     pinOut (PORT_OFF s).GPIOB 2 = false ∧ pinOut (PORT_OFF s).GPIOB 3 = false ∧
     pinOut (PORT_OFF s).GPIOB 4 = false ∧ pinOut (PORT_OFF s).GPIOB 5 = false) := by
  obtain ⟨h15, h14, h13, h12, h3, h2⟩ := PORT_OFF_cfg s
  refine ⟨⟨?_, ?_, ?_, ?_, ?_, ?_⟩, ?_⟩
  · rw [isInput, h15]; decide
  · rw [isInput, h14]; decide
  · rw [isInput, h13]; decide
  · rw [isInput, h12]; decide
  · rw [isInput, h3]; decide
  · rw [isInput, h2]; decide
  · rw [PORT_OFF_eq]
    simp [-Nat.testBit_zero, pinOut, Nat.testBit_and, testBit_lit]

/-- C5: each of `PORT_OFF`, `PORT_SWD_SETUP` and `PORT_JTAG_SETUP` is idempotent on the
register state. -/
theorem C5_mode_operations_idempotent (s : Regs) :
    PORT_OFF (PORT_OFF s) = PORT_OFF s ∧
    PORT_SWD_SETUP (PORT_SWD_SETUP s) = PORT_SWD_SETUP s ∧
    PORT_JTAG_SETUP (PORT_JTAG_SETUP s) = PORT_JTAG_SETUP s := by
  simp only [PORT_OFF_eq, PORT_SWD_SETUP_eq, PORT_JTAG_SETUP_eq]
  refine ⟨?_, ?_, ?_⟩ <;>
  · congr 2 <;>
    · apply eq_of_bits32
      · intro i hi
        interval_cases i <;>
          simp [-Nat.testBit_zero, Nat.testBit_and, Nat.testBit_or, testBit_lit]
      · intro i hi
        simp [Nat.testBit_and, Nat.testBit_or, testBit_high, hi]
      · intro i hi
        simp [Nat.testBit_and, Nat.testBit_or, testBit_high, hi]

/-! ## SWDIO turnaround (claim C6) -/

/-- Net effect of `PIN_SWDIO_OUT_ENABLE`. -/
theorem PIN_SWDIO_OUT_ENABLE_eq (s : Regs) : PIN_SWDIO_OUT_ENABLE s =
    { GPIOA := s.GPIOA,
      GPIOB := { s.GPIOB with CRH := (s.GPIOB.CRH &&& 0xF0FFFFFF) ||| 0x01000000,
                              ODR := (s.GPIOB.ODR &&& 0xFFFF) ||| 0x0002 } } := by
  simp only [PIN_SWDIO_OUT_ENABLE, PIN_SWDIO_OUT_ENABLE_body, exec, List.foldl, step, Regs.port,
    Regs.setPort, GPIO_TypeDef.cfg, GPIO_TypeDef.setCfg, writeBRR, writeBSRR, not32]
  congr 2
  · apply eq_of_bits32
    · intro i hi
      interval_cases i <;>
        simp [-Nat.testBit_zero, Nat.testBit_and, Nat.testBit_or, testBit_mod32, testBit_lit]
    · intro i hi
      simp [Nat.testBit_and, Nat.testBit_or, testBit_mod32, testBit_high, hi]
    · intro i hi
      simp [Nat.testBit_and, Nat.testBit_or, testBit_mod32, testBit_high, hi]

/-- Net effect of `PIN_SWDIO_OUT_DISABLE`. -/
theorem PIN_SWDIO_OUT_DISABLE_eq (s : Regs) : PIN_SWDIO_OUT_DISABLE s =
    { GPIOA := s.GPIOA,
      GPIOB := { s.GPIOB with CRH := (s.GPIOB.CRH &&& 0xF0FFFFFF) ||| 0x04000000,
                              ODR := s.GPIOB.ODR &&& 0xFFFD } } := by
  simp only [PIN_SWDIO_OUT_DISABLE, PIN_SWDIO_OUT_DISABLE_body, exec, List.foldl, step,
    Regs.port, Regs.setPort, GPIO_TypeDef.cfg, GPIO_TypeDef.setCfg, writeBRR, writeBSRR, not32]
  congr 2
  · apply eq_of_bits32
    · intro i hi
      interval_cases i <;>
        simp [-Nat.testBit_zero, Nat.testBit_and, Nat.testBit_or, testBit_mod32, testBit_lit]
    · intro i hi
      simp [Nat.testBit_and, Nat.testBit_or, testBit_mod32, testBit_high, hi]
    · intro i hi
      simp [Nat.testBit_and, Nat.testBit_or, testBit_mod32, testBit_high, hi]

/-- C6: `PIN_SWDIO_OUT_DISABLE` followed by `PIN_SWDIO_OUT_ENABLE` leaves SWDIO (PB14) a
push-pull output with direction-control bit PB1 set and with the output data bit it had
before; and from a well-formed state in which PB14 already was a push-pull output with PB1
set, the pair restores the register state exactly. -/
theorem C6_SWDIO_turnaround (s : Regs) :
    (pinCfg (PIN_SWDIO_OUT_ENABLE (PIN_SWDIO_OUT_DISABLE s)).GPIOB 14 = 0x1 ∧
     pinOut (PIN_SWDIO_OUT_ENABLE (PIN_SWDIO_OUT_DISABLE s)).GPIOB 1 = true ∧
     pinOut (PIN_SWDIO_OUT_ENABLE (PIN_SWDIO_OUT_DISABLE s)).GPIOB 14 = pinOut s.GPIOB 14) ∧
    (s.WF → pinCfg s.GPIOB 14 = 0x1 → pinOut s.GPIOB 1 = true →
      PIN_SWDIO_OUT_ENABLE (PIN_SWDIO_OUT_DISABLE s) = s) := by
  simp only [PIN_SWDIO_OUT_ENABLE_eq, PIN_SWDIO_OUT_DISABLE_eq]
  refine ⟨⟨?_, ?_, ?_⟩, ?_⟩
  · exact field_eq _ _ _ 24 1 (by intro i hi; interval_cases i <;> decide) (by norm_num)
  · simp [pinOut, Nat.testBit_or, Nat.testBit_and, testBit_lit]
  · simp [pinOut, Nat.testBit_or, Nat.testBit_and, testBit_lit]
  · intro hwf hcfg hout
    obtain ⟨-, -, hcrh, -, hodr⟩ := hwf
    have hf : (s.GPIOB.CRH >>> 24) &&& 0xF = 1 := hcfg
    have b24 := field_bits _ _ _ hf 0 (by norm_num)
    have b25 := field_bits _ _ _ hf 1 (by norm_num)
    have b26 := field_bits _ _ _ hf 2 (by norm_num)
    have b27 := field_bits _ _ _ hf 3 (by norm_num)
    simp [-Nat.testBit_zero, testBit_lit] at b24 b25 b26 b27
    simp only [pinOut] at hout
    have hodr32 : s.GPIOB.ODR < 2 ^ 32 := lt_trans hodr (by norm_num)
    have e1 : ((s.GPIOB.CRH &&& 0xF0FFFFFF ||| 0x04000000) &&& 0xF0FFFFFF) ||| 0x01000000 =
        s.GPIOB.CRH := by
      apply eq_of_bits32
      · intro i hi
        interval_cases i <;>
          simp [-Nat.testBit_zero, Nat.testBit_and, Nat.testBit_or, testBit_lit, b24, b25, b26,
            b27]
      · intro i hi
        simp [Nat.testBit_and, Nat.testBit_or, testBit_high, hi]
      · intro i hi
        exact testBit_high _ _ hcrh hi
    have e2 : (s.GPIOB.ODR &&& 0xFFFD &&& 0xFFFF) ||| 0x0002 = s.GPIOB.ODR := by
      apply eq_of_bits32
      · intro i hi
        rcases Nat.lt_or_ge i 16 with h16 | h16
        · interval_cases i <;>
            simp [-Nat.testBit_zero, Nat.testBit_and, Nat.testBit_or, testBit_lit, hout]
        · have hz : s.GPIOB.ODR.testBit i = false :=
            Nat.testBit_lt_two_pow
              (lt_of_lt_of_le hodr (Nat.pow_le_pow_right (by norm_num) h16))
          interval_cases i <;>
            simp [-Nat.testBit_zero, Nat.testBit_and, Nat.testBit_or, testBit_lit, hz]
      · intro i hi
        simp [Nat.testBit_and, Nat.testBit_or, testBit_high, hi]
      · intro i hi
        exact testBit_high _ _ hodr32 hi
    rw [e1, e2]

/-- C6 at the state `PORT_SWD_SETUP` produces from the reset state: the pair of calls
restores it. -/
theorem C6_SWDIO_turnaround_witness :
    (pinCfg (PIN_SWDIO_OUT_ENABLE (PIN_SWDIO_OUT_DISABLE
        (PORT_SWD_SETUP resetState))).GPIOB 14 = 0x1 ∧
     pinOut (PIN_SWDIO_OUT_ENABLE (PIN_SWDIO_OUT_DISABLE
        (PORT_SWD_SETUP resetState))).GPIOB 1 = true ∧
     pinOut (PIN_SWDIO_OUT_ENABLE (PIN_SWDIO_OUT_DISABLE
        (PORT_SWD_SETUP resetState))).GPIOB 14 = pinOut (PORT_SWD_SETUP resetState).GPIOB 14) ∧
    PIN_SWDIO_OUT_ENABLE (PIN_SWDIO_OUT_DISABLE (PORT_SWD_SETUP resetState)) =
      PORT_SWD_SETUP resetState :=
  ⟨(C6_SWDIO_turnaround (PORT_SWD_SETUP resetState)).1,
   (C6_SWDIO_turnaround (PORT_SWD_SETUP resetState)).2 (by decide) (by decide) (by decide)⟩

/-! ## Write then read on loopback wiring (claim C7) -/

/-- On loopback wiring, a read of the input data bit of a port-B pin that is a push-pull
output returns the pin's output data bit. -/
theorem read_B_of_loopback (u : Regs) (a b n : Nat) (hn : n < 16)
    (hc : pinCfg u.GPIOB n = 0x1) (h : Loopback (sample u a b)) :
    (if (sample u a b).GPIOB.IDR &&& (1 <<< n) ≠ 0 then 1 else 0) =
      if pinOut u.GPIOB n = true then 1 else 0 := by
  have hio : pinIn (sample u a b).GPIOB n = pinOut (sample u a b).GPIOB n := by
    apply (h n hn).2
    have hc2 : pinCfg (sample u a b).GPIOB n = 0x1 := hc
    rw [isInput, hc2]; decide
  have hio2 : Nat.testBit (sample u a b).GPIOB.IDR n = pinOut u.GPIOB n := hio
  by_cases hb : pinOut u.GPIOB n = true
  · rw [if_pos hb, if_pos]
    rw [and_bit_ne_zero, hio2, hb]
  · rw [if_neg hb, if_neg]
    rw [and_bit_ne_zero, hio2]; exact hb

/-- Writing 1 to SWCLK/TCK and reading it back on loopback wiring, PB15 being a push-pull
output. -/
theorem SWCLK_TCK_set_read (u : Regs) (a b : Nat) (hc : pinCfg u.GPIOB 15 = 0x1)
    (h : Loopback (sample (PIN_SWCLK_TCK_SET u) a b)) :
    PIN_SWCLK_TCK_IN (sample (PIN_SWCLK_TCK_SET u) a b) = 1 := by
  have e := read_B_of_loopback (PIN_SWCLK_TCK_SET u) a b 15 (by norm_num) hc h
  have ho : pinOut (PIN_SWCLK_TCK_SET u).GPIOB 15 = true := by
    show pinOut (writeBSRR u.GPIOB (1 <<< 15)) 15 = true
    rw [pinOut_writeBSRR _ _ _ (by norm_num) (by norm_num)]; simp
  rw [if_pos ho] at e
  exact e

/-- Writing 0 to SWCLK/TCK and reading it back on loopback wiring, PB15 being a push-pull
output. -/
theorem SWCLK_TCK_clr_read (u : Regs) (a b : Nat) (hc : pinCfg u.GPIOB 15 = 0x1)
    (h : Loopback (sample (PIN_SWCLK_TCK_CLR u) a b)) :
    PIN_SWCLK_TCK_IN (sample (PIN_SWCLK_TCK_CLR u) a b) = 0 := by
  have e := read_B_of_loopback (PIN_SWCLK_TCK_CLR u) a b 15 (by norm_num) hc h
  have ho : ¬ pinOut (PIN_SWCLK_TCK_CLR u).GPIOB 15 = true := by
    show ¬ pinOut (writeBRR u.GPIOB (1 <<< 15)) 15 = true
    rw [pinOut_writeBRR _ _ _ (by norm_num)]; simp
  rw [if_neg ho] at e
  exact e

/-- Writing 1 to SWDIO and reading it back on loopback wiring, PB14 being a push-pull
output. -/
theorem SWDIO_out_one_read (u : Regs) (a b : Nat) (hc : pinCfg u.GPIOB 14 = 0x1)
    (h : Loopback (sample (PIN_SWDIO_OUT 1 u) a b)) :
    PIN_SWDIO_IN (sample (PIN_SWDIO_OUT 1 u) a b) = 1 := by
  have e := read_B_of_loopback (PIN_SWDIO_OUT 1 u) a b 14 (by norm_num) hc h
  have ho : pinOut (PIN_SWDIO_OUT 1 u).GPIOB 14 = true := by
    show pinOut (writeBSRR u.GPIOB (1 <<< 14)) 14 = true
    rw [pinOut_writeBSRR _ _ _ (by norm_num) (by norm_num)]; simp
  rw [if_pos ho] at e
  exact e

/-- Writing 0 to SWDIO and reading it back on loopback wiring, PB14 being a push-pull
output. -/
theorem SWDIO_out_zero_read (u : Regs) (a b : Nat) (hc : pinCfg u.GPIOB 14 = 0x1)
    (h : Loopback (sample (PIN_SWDIO_OUT 0 u) a b)) :
    PIN_SWDIO_IN (sample (PIN_SWDIO_OUT 0 u) a b) = 0 := by
  have e := read_B_of_loopback (PIN_SWDIO_OUT 0 u) a b 14 (by norm_num) hc h
  have ho : ¬ pinOut (PIN_SWDIO_OUT 0 u).GPIOB 14 = true := by
    show ¬ pinOut (writeBRR u.GPIOB (1 <<< 14)) 14 = true
    rw [pinOut_writeBRR _ _ _ (by norm_num)]; simp
  rw [if_neg ho] at e
  exact e

/-- Configuration of SWCLK/TCK and SWDIO/TMS after `PORT_JTAG_SETUP`. -/
theorem PORT_JTAG_SETUP_cfg (s : Regs) :
    pinCfg (PORT_JTAG_SETUP s).GPIOB 15 = 0x1 ∧ pinCfg (PORT_JTAG_SETUP s).GPIOB 14 = 0x1 := by
  rw [PORT_JTAG_SETUP_eq]
  exact ⟨field_eq _ _ _ 28 1 (by intro i hi; interval_cases i <;> decide) (by norm_num),
    field_eq _ _ _ 24 1 (by intro i hi; interval_cases i <;> decide) (by norm_num)⟩

/-- C7, as amended: on loopback wiring after `PORT_JTAG_SETUP`, writing 1 (or 0) to SWCLK/TCK
or to SWDIO/TMS and reading the signal back returns 1 (or 0); the read accessors of TDI,
nTRST and nRESET return 0 whatever was written. -/
theorem C7_write_then_read (s : Regs) (a b : Nat) :
    (Loopback (sample (PIN_SWCLK_TCK_SET (PORT_JTAG_SETUP s)) a b) →
      PIN_SWCLK_TCK_IN (sample (PIN_SWCLK_TCK_SET (PORT_JTAG_SETUP s)) a b) = 1) ∧
    (Loopback (sample (PIN_SWCLK_TCK_CLR (PORT_JTAG_SETUP s)) a b) →
      PIN_SWCLK_TCK_IN (sample (PIN_SWCLK_TCK_CLR (PORT_JTAG_SETUP s)) a b) = 0) ∧
    (Loopback (sample (PIN_SWDIO_OUT 1 (PORT_JTAG_SETUP s)) a b) →
      PIN_SWDIO_IN (sample (PIN_SWDIO_OUT 1 (PORT_JTAG_SETUP s)) a b) = 1) ∧
    (Loopback (sample (PIN_SWDIO_OUT 0 (PORT_JTAG_SETUP s)) a b) →
      PIN_SWDIO_IN (sample (PIN_SWDIO_OUT 0 (PORT_JTAG_SETUP s)) a b) = 0) ∧
    (∀ bit, PIN_TDI_IN (sample (PIN_TDI_OUT bit (PORT_JTAG_SETUP s)) a b) = 0) ∧
    (∀ bit, PIN_nTRST_IN (sample (PIN_nTRST_OUT bit (PORT_JTAG_SETUP s)) a b) = 0) ∧
    (∀ bit, PIN_nRESET_IN (sample (PIN_nRESET_OUT bit (PORT_JTAG_SETUP s)) a b) = 0) :=
  ⟨SWCLK_TCK_set_read _ a b (PORT_JTAG_SETUP_cfg s).1,
   SWCLK_TCK_clr_read _ a b (PORT_JTAG_SETUP_cfg s).1,
   SWDIO_out_one_read _ a b (PORT_JTAG_SETUP_cfg s).2,
   SWDIO_out_zero_read _ a b (PORT_JTAG_SETUP_cfg s).2,
   fun _ => rfl, fun _ => rfl, fun _ => rfl⟩

/-- C7, as amended, at the reset state with the input data registers that loopback wiring
produces. -/
theorem C7_write_then_read_witness :
    PIN_SWCLK_TCK_IN (sample (PIN_SWCLK_TCK_SET (PORT_JTAG_SETUP resetState)) 0x0008 0xB000) = 1 ∧
    PIN_SWCLK_TCK_IN (sample (PIN_SWCLK_TCK_CLR (PORT_JTAG_SETUP resetState)) 0x0008 0x3000) = 0 ∧
    PIN_SWDIO_IN (sample (PIN_SWDIO_OUT 1 (PORT_JTAG_SETUP resetState)) 0x0008 0xF000) = 1 ∧
    PIN_SWDIO_IN (sample (PIN_SWDIO_OUT 0 (PORT_JTAG_SETUP resetState)) 0x0008 0xB000) = 0 :=
  ⟨(C7_write_then_read resetState 0x0008 0xB000).1 (by decide),
   (C7_write_then_read resetState 0x0008 0x3000).2.1 (by decide),
   (C7_write_then_read resetState 0x0008 0xF000).2.2.1 (by decide),
   (C7_write_then_read resetState 0x0008 0xB000).2.2.2.1 (by decide)⟩

/-- C7 as stated fails for TDI: from the reset state, after `PORT_JTAG_SETUP` and
`PIN_TDI_OUT (1)` on loopback wiring, PA3 is driven high and `PIN_TDI_IN` does not return 1. -/
theorem C7_counterexample :
    Loopback (sample (PIN_TDI_OUT 1 (PORT_JTAG_SETUP resetState)) 0x0008 0xB000) ∧
    pinOut (sample (PIN_TDI_OUT 1 (PORT_JTAG_SETUP resetState)) 0x0008 0xB000).GPIOA 3 = true ∧
    PIN_TDI_IN (sample (PIN_TDI_OUT 1 (PORT_JTAG_SETUP resetState)) 0x0008 0xB000) ≠ 1 := by
  decide

/-! ## Single-pin write accessors (claim C8) -/

/-- Effect of `PIN_SWDIO_OUT` on the registers. -/
theorem PIN_SWDIO_OUT_spec (s : Regs) (bit : Nat) :
    pinOut (PIN_SWDIO_OUT bit s).GPIOB 14 = decide (bit &&& 1 = 1) ∧
    (∀ n, n < 16 → n ≠ 14 → pinOut (PIN_SWDIO_OUT bit s).GPIOB n = pinOut s.GPIOB n) ∧
    (PIN_SWDIO_OUT bit s).GPIOA = s.GPIOA ∧
    (PIN_SWDIO_OUT bit s).GPIOB.CRL = s.GPIOB.CRL ∧
    (PIN_SWDIO_OUT bit s).GPIOB.CRH = s.GPIOB.CRH ∧
    (PIN_SWDIO_OUT bit s).GPIOB.IDR = s.GPIOB.IDR := by
  rcases and_one_cases bit with hb | hb
  · have e : PIN_SWDIO_OUT bit s = { s with GPIOB := writeBRR s.GPIOB (1 <<< 14) } := by
      simp only [PIN_SWDIO_OUT, PIN_SWDIO_OUT_body, hb, exec, List.foldl, step, Regs.port,
        Regs.setPort, ne_eq, not_true_eq_false, if_false]
    rw [e]
    refine ⟨?_, ?_, rfl, rfl, rfl, rfl⟩
    · rw [pinOut_writeBRR _ _ _ (by norm_num)]; simp [hb]
    · intro n hn hne
      rw [pinOut_writeBRR _ _ _ hn]; simp [hne]
  · have e : PIN_SWDIO_OUT bit s = { s with GPIOB := writeBSRR s.GPIOB (1 <<< 14) } := by
      simp only [PIN_SWDIO_OUT, PIN_SWDIO_OUT_body, hb, exec, List.foldl, step, Regs.port,
        Regs.setPort, ne_eq, one_ne_zero, not_false_eq_true, if_true]
    rw [e]
    refine ⟨?_, ?_, rfl, rfl, rfl, rfl⟩
    · rw [pinOut_writeBSRR _ _ _ (by norm_num) (by norm_num)]; simp [hb]
    · intro n hn hne
      rw [pinOut_writeBSRR _ _ _ (by norm_num) hn]; simp [hne]

/-- Effect of `PIN_TDI_OUT` on the registers. -/
theorem PIN_TDI_OUT_spec (s : Regs) (bit : Nat) :
    pinOut (PIN_TDI_OUT bit s).GPIOA 3 = decide (bit &&& 1 = 1) ∧
    (∀ n, n < 16 → n ≠ 3 → pinOut (PIN_TDI_OUT bit s).GPIOA n = pinOut s.GPIOA n) ∧
    (PIN_TDI_OUT bit s).GPIOB = s.GPIOB ∧
    (PIN_TDI_OUT bit s).GPIOA.CRL = s.GPIOA.CRL ∧
    (PIN_TDI_OUT bit s).GPIOA.CRH = s.GPIOA.CRH ∧
    (PIN_TDI_OUT bit s).GPIOA.IDR = s.GPIOA.IDR := by
  rcases and_one_cases bit with hb | hb
  · have e : PIN_TDI_OUT bit s = { s with GPIOA := writeBRR s.GPIOA (1 <<< 3) } := by
      simp only [PIN_TDI_OUT, PIN_TDI_OUT_body, hb, exec, List.foldl, step, Regs.port,
        Regs.setPort, ne_eq, not_true_eq_false, if_false]
    rw [e]
    refine ⟨?_, ?_, rfl, rfl, rfl, rfl⟩
    · rw [pinOut_writeBRR _ _ _ (by norm_num)]; simp [hb]
    · intro n hn hne
      rw [pinOut_writeBRR _ _ _ hn]; simp [hne]
  · have e : PIN_TDI_OUT bit s = { s with GPIOA := writeBSRR s.GPIOA (1 <<< 3) } := by
      simp only [PIN_TDI_OUT, PIN_TDI_OUT_body, hb, exec, List.foldl, step, Regs.port,
        Regs.setPort, ne_eq, one_ne_zero, not_false_eq_true, if_true]
    rw [e]
    refine ⟨?_, ?_, rfl, rfl, rfl, rfl⟩
    · rw [pinOut_writeBSRR _ _ _ (by norm_num) (by norm_num)]; simp [hb]
    · intro n hn hne
      rw [pinOut_writeBSRR _ _ _ (by norm_num) hn]; simp [hne]

/-- Effect of `PIN_nTRST_OUT` on the registers. -/
theorem PIN_nTRST_OUT_spec (s : Regs) (bit : Nat) :
    pinOut (PIN_nTRST_OUT bit s).GPIOB 12 = decide (bit &&& 1 = 1) ∧
    (∀ n, n < 16 → n ≠ 12 → pinOut (PIN_nTRST_OUT bit s).GPIOB n = pinOut s.GPIOB n) ∧
    (PIN_nTRST_OUT bit s).GPIOA = s.GPIOA ∧
    (PIN_nTRST_OUT bit s).GPIOB.CRL = s.GPIOB.CRL ∧
    (PIN_nTRST_OUT bit s).GPIOB.CRH = s.GPIOB.CRH ∧
    (PIN_nTRST_OUT bit s).GPIOB.IDR = s.GPIOB.IDR := by
  rcases and_one_cases bit with hb | hb
  · have e : PIN_nTRST_OUT bit s = { s with GPIOB := writeBRR s.GPIOB (1 <<< 12) } := by
      simp only [PIN_nTRST_OUT, PIN_nTRST_OUT_body, hb, exec, List.foldl, step, Regs.port,
        Regs.setPort, ne_eq, not_true_eq_false, if_false]
    rw [e]
    refine ⟨?_, ?_, rfl, rfl, rfl, rfl⟩
    · rw [pinOut_writeBRR _ _ _ (by norm_num)]; simp [hb]
    · intro n hn hne
      rw [pinOut_writeBRR _ _ _ hn]; simp [hne]
  · have e : PIN_nTRST_OUT bit s = { s with GPIOB := writeBSRR s.GPIOB (1 <<< 12) } := by
      simp only [PIN_nTRST_OUT, PIN_nTRST_OUT_body, hb, exec, List.foldl, step, Regs.port,
        Regs.setPort, ne_eq, one_ne_zero, not_false_eq_true, if_true]
    rw [e]
    refine ⟨?_, ?_, rfl, rfl, rfl, rfl⟩
    · rw [pinOut_writeBSRR _ _ _ (by norm_num) (by norm_num)]; simp [hb]
    · intro n hn hne
      rw [pinOut_writeBSRR _ _ _ (by norm_num) hn]; simp [hne]

/-- Effect of `PIN_nRESET_OUT` on the registers. -/
theorem PIN_nRESET_OUT_spec (s : Regs) (bit : Nat) :
    pinOut (PIN_nRESET_OUT bit s).GPIOB 13 = decide (bit &&& 1 = 1) ∧
    (∀ n, n < 16 → n ≠ 13 → pinOut (PIN_nRESET_OUT bit s).GPIOB n = pinOut s.GPIOB n) ∧
    (PIN_nRESET_OUT bit s).GPIOA = s.GPIOA ∧
    (PIN_nRESET_OUT bit s).GPIOB.CRL = s.GPIOB.CRL ∧
    (PIN_nRESET_OUT bit s).GPIOB.CRH = s.GPIOB.CRH ∧
    (PIN_nRESET_OUT bit s).GPIOB.IDR = s.GPIOB.IDR := by
  rcases and_one_cases bit with hb | hb
  · have e : PIN_nRESET_OUT bit s = { s with GPIOB := writeBRR s.GPIOB (1 <<< 13) } := by
      simp only [PIN_nRESET_OUT, PIN_nRESET_OUT_body, hb, exec, List.foldl, step, Regs.port,
        Regs.setPort, ne_eq, not_true_eq_false, if_false]
    rw [e]
    refine ⟨?_, ?_, rfl, rfl, rfl, rfl⟩
    · rw [pinOut_writeBRR _ _ _ (by norm_num)]; simp [hb]
    · intro n hn hne
      rw [pinOut_writeBRR _ _ _ hn]; simp [hne]
  · have e : PIN_nRESET_OUT bit s = { s with GPIOB := writeBSRR s.GPIOB (1 <<< 13) } := by
      simp only [PIN_nRESET_OUT, PIN_nRESET_OUT_body, hb, exec, List.foldl, step, Regs.port,
        Regs.setPort, ne_eq, one_ne_zero, not_false_eq_true, if_true]
    rw [e]
    refine ⟨?_, ?_, rfl, rfl, rfl, rfl⟩
    · rw [pinOut_writeBSRR _ _ _ (by norm_num) (by norm_num)]; simp [hb]
    · intro n hn hne
      rw [pinOut_writeBSRR _ _ _ (by norm_num) hn]; simp [hne]

/-- C8: each single-pin write accessor sets the output data bit of its own pin to the lowest
bit of its argument and changes no other output data bit of ports A and B and no
configuration register. -/
theorem C8_single_pin_writes (s : Regs) (bit : Nat) :
    (pinOut (PIN_SWDIO_OUT bit s).GPIOB 14 = decide (bit &&& 1 = 1) ∧
     (∀ n, n < 16 → n ≠ 14 → pinOut (PIN_SWDIO_OUT bit s).GPIOB n = pinOut s.GPIOB n) ∧
     (PIN_SWDIO_OUT bit s).GPIOA = s.GPIOA ∧
     (PIN_SWDIO_OUT bit s).GPIOB.CRL = s.GPIOB.CRL ∧
     (PIN_SWDIO_OUT bit s).GPIOB.CRH = s.GPIOB.CRH) ∧
    (pinOut (PIN_TDI_OUT bit s).GPIOA 3 = decide (bit &&& 1 = 1) ∧
     (∀ n, n < 16 → n ≠ 3 → pinOut (PIN_TDI_OUT bit s).GPIOA n = pinOut s.GPIOA n) ∧
     (PIN_TDI_OUT bit s).GPIOB = s.GPIOB ∧
     (PIN_TDI_OUT bit s).GPIOA.CRL = s.GPIOA.CRL ∧
     (PIN_TDI_OUT bit s).GPIOA.CRH = s.GPIOA.CRH) ∧
    (pinOut (PIN_nTRST_OUT bit s).GPIOB 12 = decide (bit &&& 1 = 1) ∧
     (∀ n, n < 16 → n ≠ 12 → pinOut (PIN_nTRST_OUT bit s).GPIOB n = pinOut s.GPIOB n) ∧
     (PIN_nTRST_OUT bit s).GPIOA = s.GPIOA ∧
     (PIN_nTRST_OUT bit s).GPIOB.CRL = s.GPIOB.CRL ∧
     (PIN_nTRST_OUT bit s).GPIOB.CRH = s.GPIOB.CRH) ∧
    (pinOut (PIN_nRESET_OUT bit s).GPIOB 13 = decide (bit &&& 1 = 1) ∧
     (∀ n, n < 16 → n ≠ 13 → pinOut (PIN_nRESET_OUT bit s).GPIOB n = pinOut s.GPIOB n) ∧
     (PIN_nRESET_OUT bit s).GPIOA = s.GPIOA ∧
     (PIN_nRESET_OUT bit s).GPIOB.CRL = s.GPIOB.CRL ∧
     (PIN_nRESET_OUT bit s).GPIOB.CRH = s.GPIOB.CRH) := by
  obtain ⟨a1, a2, a3, a4, a5, -⟩ := PIN_SWDIO_OUT_spec s bit
  obtain ⟨b1, b2, b3, b4, b5, -⟩ := PIN_TDI_OUT_spec s bit
  obtain ⟨c1, c2, c3, c4, c5, -⟩ := PIN_nTRST_OUT_spec s bit
  obtain ⟨d1, d2, d3, d4, d5, -⟩ := PIN_nRESET_OUT_spec s bit
  exact ⟨⟨a1, a2, a3, a4, a5⟩, ⟨b1, b2, b3, b4, b5⟩, ⟨c1, c2, c3, c4, c5⟩,
    ⟨d1, d2, d3, d4, d5⟩⟩

/-- C8 at the state with PB8 high and argument 1: the neighbouring output data bits keep
their values. -/
theorem C8_single_pin_writes_witness :
    pinOut (PIN_SWDIO_OUT 1 pb8HighState).GPIOB 8 = pinOut pb8HighState.GPIOB 8 ∧
    pinOut (PIN_TDI_OUT 1 pb8HighState).GPIOA 2 = pinOut pb8HighState.GPIOA 2 ∧
    pinOut (PIN_nTRST_OUT 1 pb8HighState).GPIOB 8 = pinOut pb8HighState.GPIOB 8 ∧
    pinOut (PIN_nRESET_OUT 1 pb8HighState).GPIOB 8 = pinOut pb8HighState.GPIOB 8 :=
  ⟨(C8_single_pin_writes pb8HighState 1).1.2.1 8 (by decide) (by decide),
   (C8_single_pin_writes pb8HighState 1).2.1.2.1 2 (by decide) (by decide),
   (C8_single_pin_writes pb8HighState 1).2.2.1.2.1 8 (by decide) (by decide),
   (C8_single_pin_writes pb8HighState 1).2.2.2.2.1 8 (by decide) (by decide)⟩

/-! ## Order of the stores of `PORT_OFF` (claim C9) -/

/-- C9, as amended: no store of `PORT_OFF` changes the output data bit of a debug pin.  In
every state of the trace of `PORT_OFF`, in particular where a pin becomes an input, the
output data bits of PB15, PB14, PB13, PB12, PA3 and PA2 are the ones of the starting state;
the trace ends in the state `PORT_OFF` returns. -/
theorem C9_PORT_OFF_keeps_output_bits (s : Regs) :
    (∀ t ∈ trace PORT_OFF_body s,
      pinOut t.GPIOB 15 = pinOut s.GPIOB 15 ∧ pinOut t.GPIOB 14 = pinOut s.GPIOB 14 ∧
      pinOut t.GPIOB 13 = pinOut s.GPIOB 13 ∧ pinOut t.GPIOB 12 = pinOut s.GPIOB 12 ∧
      pinOut t.GPIOA 3 = pinOut s.GPIOA 3 ∧ pinOut t.GPIOA 2 = pinOut s.GPIOA 2) ∧
    (trace PORT_OFF_body s).getLast? = some (PORT_OFF s) := by
  refine ⟨?_, trace_getLast _ _⟩
  apply trace_invariant
    (fun t => pinOut t.GPIOB 15 = pinOut s.GPIOB 15 ∧ pinOut t.GPIOB 14 = pinOut s.GPIOB 14 ∧
      pinOut t.GPIOB 13 = pinOut s.GPIOB 13 ∧ pinOut t.GPIOB 12 = pinOut s.GPIOB 12 ∧
      pinOut t.GPIOA 3 = pinOut s.GPIOA 3 ∧ pinOut t.GPIOA 2 = pinOut s.GPIOA 2)
  · intro st hst t ht
    simp only [PORT_OFF_body, List.mem_cons, List.mem_singleton, List.not_mem_nil, or_false] at hst
    rcases hst with h | h | h | h | h | h | h | h | h | h | h | h | h | h | h | h | h | h <;>
      subst h <;>
      simp only [step, Regs.port, Regs.setPort, GPIO_TypeDef.setCfg] <;>
      first
      | exact ht
      | (obtain ⟨h15, h14, h13, h12, h3, h2⟩ := ht
         refine ⟨?_, ?_, ?_, ?_, h3, h2⟩
         · rw [pinOut_writeBRR _ _ _ (by norm_num), h15]; simp
         · rw [pinOut_writeBRR _ _ _ (by norm_num), h14]; simp
         · rw [pinOut_writeBRR _ _ _ (by norm_num), h13]; simp
         · rw [pinOut_writeBRR _ _ _ (by norm_num), h12]; simp)
  · exact ⟨rfl, rfl, rfl, rfl, rfl, rfl⟩

/-- C9, as amended, in SWD mode with the clock low: the final state of `PORT_OFF` belongs to
its trace and has the output data bits of the starting state. -/
theorem C9_PORT_OFF_keeps_output_bits_witness :
    pinOut (PORT_OFF swclkLowState).GPIOB 15 = pinOut swclkLowState.GPIOB 15 ∧
    pinOut (PORT_OFF swclkLowState).GPIOB 14 = pinOut swclkLowState.GPIOB 14 ∧
    pinOut (PORT_OFF swclkLowState).GPIOB 13 = pinOut swclkLowState.GPIOB 13 ∧
    pinOut (PORT_OFF swclkLowState).GPIOB 12 = pinOut swclkLowState.GPIOB 12 ∧
    pinOut (PORT_OFF swclkLowState).GPIOA 3 = pinOut swclkLowState.GPIOA 3 ∧
    pinOut (PORT_OFF swclkLowState).GPIOA 2 = pinOut swclkLowState.GPIOA 2 :=
  (C9_PORT_OFF_keeps_output_bits swclkLowState).1 (PORT_OFF swclkLowState) (by decide)

/-- C9 as stated fails in SWD mode with the clock low: in the trace of `PORT_OFF`, SWCLK
(PB15) becomes an input while its output data bit is 0, and no state of the trace has that
bit at 1. -/
theorem C9_counterexample :
    ¬ highWhenSwitchedToInput (trace PORT_OFF_body swclkLowState) .B 15 ∧
    (∀ t ∈ trace PORT_OFF_body swclkLowState, pinOut t.GPIOB 15 = false) := by
  decide

/-! ## Frame of the mode operations (claim C10) -/

/-- The function `PORT_OFF` touches only the debug pins and their direction-control bits. -/
theorem PORT_OFF_frame (s : Regs) : OnlyDebugPinsChanged s (PORT_OFF s) := by
  rw [PORT_OFF_eq]
  refine ⟨?_, ?_, ?_, ?_⟩
  · intro n hn h6 h12
    interval_cases n <;> simp [pinOut, Nat.testBit_and, testBit_lit]
  · intro n _ _
    exact pinOut_congr _ _ rfl n
  · intro n hn h12
    rcases Nat.lt_or_ge n 8 with h8 | h8
    · apply pinCfg_low
      · rfl
      · exact h8
    interval_cases n
    · exact field_keep _ _ _ 0 (by intro i hi; interval_cases i <;> decide)
    · exact field_keep _ _ _ 4 (by intro i hi; interval_cases i <;> decide)
    · exact field_keep _ _ _ 8 (by intro i hi; interval_cases i <;> decide)
    · exact field_keep _ _ _ 12 (by intro i hi; interval_cases i <;> decide)
  · intro n hn h2 h3
    rcases Nat.lt_or_ge n 8 with h8 | h8
    · interval_cases n
      · exact field_keep _ _ _ 0 (by intro i hi; interval_cases i <;> decide)
      · exact field_keep _ _ _ 4 (by intro i hi; interval_cases i <;> decide)
      · exact absurd rfl h2
      · exact absurd rfl h3
      · exact field_keep _ _ _ 16 (by intro i hi; interval_cases i <;> decide)
      · exact field_keep _ _ _ 20 (by intro i hi; interval_cases i <;> decide)
      · exact field_keep _ _ _ 24 (by intro i hi; interval_cases i <;> decide)
      · exact field_keep _ _ _ 28 (by intro i hi; interval_cases i <;> decide)
    · apply pinCfg_high
      · rfl
      · exact h8

/-- The function `PORT_SWD_SETUP` touches only the debug pins and their direction-control bits. -/
theorem PORT_SWD_SETUP_frame (s : Regs) : OnlyDebugPinsChanged s (PORT_SWD_SETUP s) := by
  rw [PORT_SWD_SETUP_eq]
  refine ⟨?_, ?_, ?_, ?_⟩
  · intro n hn h6 h12
    interval_cases n <;> simp [pinOut, Nat.testBit_and, Nat.testBit_or, testBit_lit]
  · intro n _ _
    exact pinOut_congr _ _ rfl n
  · intro n hn h12
    rcases Nat.lt_or_ge n 8 with h8 | h8
    · apply pinCfg_low
      · rfl
      · exact h8
    interval_cases n
    · exact field_keep _ _ _ 0 (by intro i hi; interval_cases i <;> decide)
    · exact field_keep _ _ _ 4 (by intro i hi; interval_cases i <;> decide)
    · exact field_keep _ _ _ 8 (by intro i hi; interval_cases i <;> decide)
    · exact field_keep _ _ _ 12 (by intro i hi; interval_cases i <;> decide)
  · intro n _ _ _
    rfl

/-- The function `PORT_JTAG_SETUP` keeps everything outside the debug pins except the output data bit of
PB8, which it clears. -/
theorem PORT_JTAG_SETUP_frame_except_PB8 (s : Regs) :
    (∀ n, n < 16 → 6 ≤ n → n < 12 → n ≠ 8 →
      pinOut (PORT_JTAG_SETUP s).GPIOB n = pinOut s.GPIOB n) ∧
    pinOut (PORT_JTAG_SETUP s).GPIOB 8 = false ∧
    (∀ n, n < 16 → n ≠ 3 → pinOut (PORT_JTAG_SETUP s).GPIOA n = pinOut s.GPIOA n) ∧
    (∀ n, n < 16 → n < 12 → pinCfg (PORT_JTAG_SETUP s).GPIOB n = pinCfg s.GPIOB n) ∧
    (∀ n, n < 16 → n ≠ 2 → n ≠ 3 →
      pinCfg (PORT_JTAG_SETUP s).GPIOA n = pinCfg s.GPIOA n) := by
  rw [PORT_JTAG_SETUP_eq]
  refine ⟨?_, ?_, ?_, ?_, ?_⟩
  · intro n hn h6 h12 h8
    interval_cases n <;> simp_all [pinOut, Nat.testBit_and, Nat.testBit_or, testBit_lit]
  · simp [pinOut, Nat.testBit_and, Nat.testBit_or, testBit_lit]
  · intro n hn h3
    interval_cases n <;>
      simp_all [-Nat.testBit_zero, pinOut, Nat.testBit_and, Nat.testBit_or, testBit_lit]
  · intro n hn h12
    rcases Nat.lt_or_ge n 8 with h8 | h8
    · apply pinCfg_low
      · rfl
      · exact h8
    interval_cases n
    · exact field_keep _ _ _ 0 (by intro i hi; interval_cases i <;> decide)
    · exact field_keep _ _ _ 4 (by intro i hi; interval_cases i <;> decide)
    · exact field_keep _ _ _ 8 (by intro i hi; interval_cases i <;> decide)
    · exact field_keep _ _ _ 12 (by intro i hi; interval_cases i <;> decide)
  · intro n hn h2 h3
    rcases Nat.lt_or_ge n 8 with h8 | h8
    · interval_cases n
      · exact field_keep _ _ _ 0 (by intro i hi; interval_cases i <;> decide)
      · exact field_keep _ _ _ 4 (by intro i hi; interval_cases i <;> decide)
      · exact absurd rfl h2
      · exact absurd rfl h3
      · exact field_keep _ _ _ 16 (by intro i hi; interval_cases i <;> decide)
      · exact field_keep _ _ _ 20 (by intro i hi; interval_cases i <;> decide)
      · exact field_keep _ _ _ 24 (by intro i hi; interval_cases i <;> decide)
      · exact field_keep _ _ _ 28 (by intro i hi; interval_cases i <;> decide)
    · apply pinCfg_high
      · rfl
      · exact h8

/-- C10, evaluated at the reset state with PB8 high: `PORT_JTAG_SETUP` clears the output data
bit of PB8, which is neither a debug pin nor a direction-control bit. -/
theorem C10_PORT_JTAG_SETUP_clears_PB8 :
    ¬ OnlyDebugPinsChanged pb8HighState (PORT_JTAG_SETUP pb8HighState) ∧
    pinOut pb8HighState.GPIOB 8 = true ∧
    pinOut (PORT_JTAG_SETUP pb8HighState).GPIOB 8 = false := by
  decide

end DAPConfig
